import Mathlib

/-!
# Back2Task — verification of the nudging decision engine

Shallow embedding of the decision logic of the Back2Task repository:

* `api/services/llm.py` — the rule-based-fallback variant of `LLMService`
  (`_fallback_policy`, `_build_context_prompt`, `_rate_limit`,
  `decide_nudging_policy`, `is_available`);
* `src/api/services/llm.py` — the static-fallback variant
  (`decide_nudging_policy` returning quiet/0.0 policies on every failure);
* `src/api/main.py` — `_evaluate_productivity_by_ai` and `ingest_event`.

Machine conventions: Python `int` is `Int` (with `Int.fdiv`/`Int.fmod` for
Python's floor `//` and `%`), `float` literals that are only constructed and
compared are `ℚ`, Python `str` is `String`, a dict field that may be absent
(or `None`) is `Option String`; network effects are abstracted as an
explicitly quantified outcome type: the code's own branching on that outcome
is embedded verbatim.
-/

namespace Back2Task

/-- `NudgingPolicy` dataclass (both `llm.py` variants):
`action` ("quiet" | "gentle_nudge" | "strong_nudge"), `reason`, optional
`tip`, `confidence` (default 0.5). -/
structure NudgingPolicy where
  action : String
  reason : String
  tip : Option String := none
  confidence : ℚ := 0.5
  deriving DecidableEq, Repr

/-- Observation dictionary as read by the services: keys `active_app`,
`title`, `url`, `idle_ms`, `phone_detected`, `screenshot`.  A key that is
absent, or present with value `None`, is `none`.  (`_fallback_policy` and
`_build_context_prompt` default every string key to `""` via
`observations.get(k, "")` / `observations.get(k) or ...`, and `idle_ms`
to `0`; the embedding keeps `idle_ms` as the integer stored by the
caller.) -/
structure Observations where
  active_app : Option String := none
  title : Option String := none
  url : Option String := none
  idle_ms : Int := 0
  phone_detected : Bool := false
  screenshot : Option String := none
  deriving DecidableEq, Repr

/-- Python substring membership `pat in s`: some contiguous run of `s`'s
characters equals `pat` (true for the empty pattern, as in Python). -/
def strContains (s pat : String) : Bool :=
  (List.range (s.toList.length + 1)).any
    (fun i => (s.toList.drop i).take pat.toList.length == pat.toList)

/-- Python truthiness of an optional string field retrieved with
`observations.get(key, "")` and tested with `if value:`. -/
def strTruthy (o : Option String) : Bool :=
  !((o.getD "") == "")

/-- `strong_distractions` list of `_fallback_policy`
(`api/services/llm.py`, lines 216–226). -/
def strong_distractions : List String :=
  ["youtube", "tiktok", "twitter", "instagram", "facebook", "netflix",
   "prime video", "steam", "game"]

/-- `gentle_distractions` list (`api/services/llm.py`, line 229). -/
def gentle_distractions : List String :=
  ["reddit", "news", "shopping", "amazon", "ebay"]

/-- `productive_patterns` list (`api/services/llm.py`, lines 232–243). -/
def productive_patterns : List String :=
  ["code", "vscode", "vim", "emacs", "ide", "terminal", "documentation",
   "github", "stackoverflow", "programming"]

/-- `content_to_check = f"{active_app} {title} {url}"`
(`api/services/llm.py`, line 246). -/
def contentToCheck (obs : Observations) : String :=
  (obs.active_app.getD "") ++ " " ++ (obs.title.getD "") ++ " " ++
    (obs.url.getD "")

/-- `LLMService._fallback_policy` (`api/services/llm.py`, lines 199–294):
long idle (> 300000 ms) ⇒ gentle nudge; else a truthy screenshot ⇒ quiet
(0.2); else the first matching keyword tier decides; default quiet (0.3).
`phone_detected` is never consulted. -/
def fallbackPolicy (obs : Observations) : NudgingPolicy :=
  if obs.idle_ms > 300000 then
    { action := "gentle_nudge", reason := "Long idle time",
      tip := some "Ready to continue working?", confidence := 0.7 }
  else if strTruthy obs.screenshot then
    { action := "quiet", reason := "Screenshot analysis unavailable",
      tip := none, confidence := 0.2 }
  else if strong_distractions.any (fun k => strContains (contentToCheck obs) k) then
    { action := "strong_nudge", reason := "Distraction detected",
      tip := some "Get back to your task!", confidence := 0.8 }
  else if gentle_distractions.any (fun k => strContains (contentToCheck obs) k) then
    { action := "gentle_nudge", reason := "Minor distraction",
      tip := some "Consider returning to work", confidence := 0.6 }
  else if productive_patterns.any (fun k => strContains (contentToCheck obs) k) then
    { action := "quiet", reason := "Productive activity",
      tip := none, confidence := 0.7 }
  else
    { action := "quiet", reason := "Unknown activity",
      tip := none, confidence := 0.3 }

/-! ## Network environment

The services exercise the network through `requests.get` / `requests.post`.
All the engine can observe of a call is abstracted into an outcome value,
and the theorems quantify over every outcome; the branching the code
performs on an outcome is embedded verbatim. -/

/-- What `json.loads(content)` yields on the extracted message content:
either a parse failure (`json.JSONDecodeError`), or a parsed object whose
`action` / `reason` / `tip` keys may each be present or absent. -/
inductive ContentParse where
  | parseError
  | parsed (action : Option String) (reason : Option String) (tip : Option String)
  deriving DecidableEq, Repr

/-- The shape of a successfully decoded JSON response body with respect to
the extraction `response_data["choices"][0]["message"]["content"]`:
either the chain of lookups fails (raising `KeyError`/`IndexError`/
`TypeError`), or it produces a content string, represented by what
`json.loads` makes of it. -/
inductive BodyShape where
  | missingShape
  | content (c : ContentParse)
  deriving DecidableEq, Repr

/-- The body of an HTTP response as seen through `response.json()`:
not decodable as JSON (raises `requests.exceptions.JSONDecodeError`,
a `RequestException`), or a decoded body of some shape. -/
inductive Body where
  | notJson
  | json (shape : BodyShape)
  deriving DecidableEq, Repr

/-- Outcome of the `requests.post` call to `/v1/chat/completions`:
a timeout (`requests.exceptions.Timeout`), another request failure
(`requests.RequestException` — connection errors and the like), or an HTTP
response with a status code and a body. -/
inductive RemoteOutcome where
  | timeout
  | requestError
  | response (status : Nat) (body : Body)
  deriving DecidableEq, Repr

/-- A Python exception escaping a function (only the static-fallback
variant can let one escape: the key/index lookups on the decoded body are
outside its `except` clauses). -/
inductive PyExn where
  | keyError
  deriving DecidableEq, Repr

/-- `LLMService.decide_nudging_policy` of `src/api/services/llm.py`
(static-fallback variant, lines 119–236).  The first component is the
returned policy, or the exception the call raises; the second component
records whether the remote chat call was issued.  Branches, in source
order: unavailable ⇒ static quiet 0.0 without calling; non-200 status ⇒
"LLM error"; undecodable body ⇒ caught as `RequestException` ⇒
"LLM exception"; missing `choices[0].message.content` shape ⇒ uncaught
`KeyError`; content that is not JSON ⇒ "LLM parse error"; parsed content ⇒
fields with defaults (`action` defaults to "gentle_nudge") at confidence
0.8; timeout ⇒ "LLM timeout"; other request failure ⇒ "LLM exception". -/
def decideNudgingPolicyStatic (available : Bool) (_task : String)
    (_obs : Observations) (outcome : RemoteOutcome) :
    Except PyExn NudgingPolicy × Bool :=
  if !available then
    (Except.ok { action := "quiet", reason := "LLM unavailable",
                 tip := none, confidence := 0.0 }, false)
  else
    match outcome with
    | .timeout =>
        (Except.ok { action := "quiet", reason := "LLM timeout",
                     tip := none, confidence := 0.0 }, true)
    | .requestError =>
        (Except.ok { action := "quiet", reason := "LLM exception",
                     tip := none, confidence := 0.0 }, true)
    | .response status body =>
        if status ≠ 200 then
          (Except.ok { action := "quiet", reason := "LLM error",
                       tip := none, confidence := 0.0 }, true)
        else
          match body with
          | .notJson =>
              (Except.ok { action := "quiet", reason := "LLM exception",
                           tip := none, confidence := 0.0 }, true)
          | .json .missingShape => (Except.error .keyError, true)
          | .json (.content .parseError) =>
              (Except.ok { action := "quiet", reason := "LLM parse error",
                           tip := none, confidence := 0.0 }, true)
          | .json (.content (.parsed a r t)) =>
              (Except.ok { action := a.getD "gentle_nudge",
                           reason := r.getD "LLM decision",
                           tip := t, confidence := 0.8 }, true)

/-- `LLMService.decide_nudging_policy` of `api/services/llm.py`
(rule-based-fallback variant, lines 106–197).  Every failure branch —
unavailable service, non-200 status, timeout, any other exception
(`except Exception` covers the body-shape `KeyError` and undecodable
bodies), and content that is not JSON — returns
`_fallback_policy(observations)`; a parsed content returns its fields
with defaults at confidence 0.8. -/
def decideNudgingPolicyRule (available : Bool) (_task : String)
    (obs : Observations) (outcome : RemoteOutcome) : NudgingPolicy :=
  if !available then fallbackPolicy obs
  else
    match outcome with
    | .timeout => fallbackPolicy obs
    | .requestError => fallbackPolicy obs
    | .response status body =>
        if status ≠ 200 then fallbackPolicy obs
        else
          match body with
          | .notJson => fallbackPolicy obs
          | .json .missingShape => fallbackPolicy obs
          | .json (.content .parseError) => fallbackPolicy obs
          | .json (.content (.parsed a r t)) =>
              { action := a.getD "gentle_nudge",
                reason := r.getD "LLM decision",
                tip := t, confidence := 0.8 }

/-- The closed action set documented for `NudgingPolicy.action`. -/
def allowedActions : List String := ["quiet", "gentle_nudge", "strong_nudge"]

/-- Outcome of the liveness `requests.get(f"{base_url}/v1/models", timeout=5)`:
an exception, or a response with a status code. -/
inductive GetOutcome where
  | exn
  | response (status : Nat)
  deriving DecidableEq, Repr

/-- `LLMService.is_available` (both variants; `src/api/services/llm.py`
lines 68–76): any exception ⇒ `False`; otherwise `status_code == 200`. -/
def is_available (o : GetOutcome) : Bool :=
  match o with
  | .exn => false
  | .response status => status == 200

/-! ## Rate limiting

`LLMService._rate_limit` (both variants; `src/api/services/llm.py`
lines 78–84) keeps `self.last_call_time` and sleeps away the remainder of
`min_call_interval` when called too soon.  Wall-clock time is modelled as
`ℚ`; `time.sleep(d)` advances the clock by exactly `d` (a real sleep lasts
at least `d`, so the separation proved here is a lower bound). -/

/-- `self.min_call_interval = 1.0` (seconds). -/
def min_call_interval : ℚ := 1

/-- The mutable state `self.last_call_time` of `LLMService`. -/
structure RateState where
  last_call_time : ℚ
  deriving DecidableEq, Repr

/-- `LLMService._rate_limit`, as a function of the wall-clock time `now` at
which it is entered: returns the time at which it returns (= the time the
remote call is then issued) together with the updated state
(`self.last_call_time = time.time()` after the optional sleep). -/
def rate_limit (now : ℚ) (st : RateState) : ℚ × RateState :=
  let elapsed := now - st.last_call_time
  if elapsed < min_call_interval then
    let issue := now + (min_call_interval - elapsed)
    (issue, ⟨issue⟩)
  else
    (now, ⟨now⟩)

/-! ## Context prompt -/

/-- Python `observations.get(key) or default`: `None` and `""` both fall
back to `default`. -/
def pyOrDefault (o : Option String) (d : String) : String :=
  match o with
  | none => d
  | some s => if s = "" then d else s

/-- Python string slicing `s[:n]`: the first `n` code points. -/
def pySlice (s : String) (n : Nat) : String :=
  ⟨s.toList.take n⟩

/-- `IDLE_LONG_MS = 60_000` (`src/api/services/llm.py`, line 10). -/
def IDLE_LONG_MS : Int := 60000

/-- `IDLE_SHORT_MS = 5_000` (`src/api/services/llm.py`, line 11). -/
def IDLE_SHORT_MS : Int := 5000

/-- The idle-time description of `_build_context_prompt`
(`src/api/services/llm.py`, lines 95–103), with Python's floor `//`/`%`
rendered as `Int.fdiv`/`Int.fmod`. -/
def idleDesc (idle_ms : Int) : String :=
  if idle_ms > IDLE_LONG_MS then
    toString (idle_ms.fdiv 60000) ++ "min " ++
      toString ((idle_ms.fmod 60000).fdiv 1000) ++ "sec idle"
  else if idle_ms > IDLE_SHORT_MS then
    toString (idle_ms.fdiv 1000) ++ "sec idle"
  else
    "active"

/-- `LLMService._build_context_prompt` (`src/api/services/llm.py`,
lines 86–117): the stripped f-string assembled from the observation
fields, the truncations `title[:80]` and `url[:80]` (or `"N/A"` for an
empty URL), `idleDesc`, and the screenshot availability flag. -/
def buildContextPrompt (task : String) (obs : Observations) : String :=
  let active_app := pyOrDefault obs.active_app "unknown"
  let title := pyOrDefault obs.title ""
  let url := pyOrDefault obs.url ""
  let screenshot := pyOrDefault obs.screenshot ""
  "Task: " ++ task ++
  "\nCurrent Activity:" ++
  "\n- App: " ++ active_app ++
  "\n- Window: " ++ pySlice title 80 ++
  "\n- URL: " ++ (if url ≠ "" then pySlice url 80 else "N/A") ++
  "\n- Status: " ++ idleDesc obs.idle_ms ++
  "\n- Screenshot: " ++ (if screenshot ≠ "" then "Available" else "Not available") ++
  "\n\nPlease analyze the screenshot (if available) to determine" ++
  "\nif the user is focused on their task or being distracted." ++
  "\nDecide the best nudging action now."

/-! ## FastAPI layer (`src/api/main.py`) -/

/-- `_evaluate_productivity_by_ai` (`src/api/main.py`, lines 280–304),
parameterized by the decision the `LLMService` returns: the productive
flag is `policy.action == "quiet"`. -/
def evaluateProductivityByAI (task : String) (obs : Observations)
    (decide : String → Observations → NudgingPolicy) :
    Bool × NudgingPolicy :=
  let policy := decide task obs
  (policy.action == "quiet", policy)

/-- The part of the global `STATE` dict of `src/api/main.py` that
`ingest_event` updates. -/
structure ServerState where
  focus_target : String
  productive : Bool
  last_nudge : Option NudgingPolicy
  last_event : Option Observations
  deriving DecidableEq, Repr

/-- `ingest_event` (`src/api/main.py`, lines 121–153), with the LLM
service available: evaluates productivity, stores
`STATE["productive"]`, `STATE["last_nudge"]`, `STATE["last_event"]`, and
returns `{"ok": True, "productive": is_productive, "policy": ...}` —
here the updated state together with the `(productive, policy)` pair of
the response. -/
def ingest_event (st : ServerState) (event : Observations)
    (decide : String → Observations → NudgingPolicy) :
    ServerState × Bool × NudgingPolicy :=
  let r := evaluateProductivityByAI st.focus_target event decide
  ({ st with productive := r.1, last_nudge := some r.2,
             last_event := some event },
   r.1, r.2)

/-! ## Statement vocabulary and concrete inputs -/

/-- The remote action string that the success path of
`decide_nudging_policy` passes through verbatim: present exactly when the
outcome is a 200 response whose decoded content parsed with an `action`
key. -/
def remoteActionOverride (o : RemoteOutcome) : Option String :=
  match o with
  | .response 200 (.json (.content (.parsed (some a) _ _))) => some a
  | _ => none

/-- The failure modes of the remote decision call enumerated by the spec:
non-success status, timeout, connection error, undecodable body, body of
the wrong shape, or content that is not JSON. -/
def isFailureOutcome (o : RemoteOutcome) : Bool :=
  match o with
  | .timeout => true
  | .requestError => true
  | .response status body =>
      if status ≠ 200 then true
      else
        match body with
        | .notJson => true
        | .json .missingShape => true
        | .json (.content .parseError) => true
        | .json (.content (.parsed _ _ _)) => false

/-- An observation whose title carries the distraction keyword in upper
case only. -/
def upperYoutubeObs : Observations :=
  { active_app := some "chrome.exe", title := some "YOUTUBE",
    url := some "", idle_ms := 1000 }

/-- An observation whose title carries the keyword exactly as listed. -/
def lowerYoutubeObs : Observations :=
  { active_app := some "chrome.exe", title := some "watching youtube",
    url := some "", idle_ms := 1000 }

/-- The phone-distraction observation of the repository's own test
`test_fallback_policy_phone_distraction`
(`tests/api/test_llm_service.py`, lines 51–62). -/
def phoneObs : Observations :=
  { active_app := some "Code.exe", title := some "main.py - VSCode",
    url := some "", idle_ms := 1000, phone_detected := true }

/-- An observation carrying a distraction keyword, the phone flag and a
screenshot at once. -/
def screenshotObs : Observations :=
  { active_app := some "chrome.exe", title := some "youtube",
    url := some "https://youtube.com/watch", idle_ms := 1000,
    phone_detected := true, screenshot := some "iVBORw0KGgo" }

/-- An almost-idle observation (3 seconds). -/
def activeIdleObs : Observations :=
  { active_app := some "Code.exe", title := some "main.py - editor",
    url := some "", idle_ms := 3000 }

/-- A mid-range idle observation (30 seconds). -/
def shortIdleObs : Observations :=
  { active_app := some "Code.exe", title := some "main.py - editor",
    url := some "", idle_ms := 30000 }

/-- A long idle observation (1 minute 30.5 seconds) with a URL. -/
def longIdleObs : Observations :=
  { active_app := some "chrome.exe", title := some "Docs - reading",
    url := some "https://example.com/article", idle_ms := 90500 }

/-! ## Helper lemmas -/

/-- String append is associative (component lists append associatively). -/
theorem string_append_assoc (a b c : String) : a ++ b ++ c = a ++ (b ++ c) :=
  congrArg String.mk (List.append_assoc a.data b.data c.data)

/-- Whatever the fallback classifier returns carries one of the three
closed actions. -/
theorem fallbackPolicy_action_mem (obs : Observations) :
    (fallbackPolicy obs).action ∈ allowedActions := by
  unfold fallbackPolicy
  split
  · simp [allowedActions]
  split
  · simp [allowedActions]
  split
  · simp [allowedActions]
  split
  · simp [allowedActions]
  split <;> simp [allowedActions]

/-- One `_rate_limit` call returns at `max now (last_call_time +
min_call_interval)` and records that instant as the new
`last_call_time`. -/
theorem rate_limit_step (now : ℚ) (st : RateState) :
    (rate_limit now st).1 = max now (st.last_call_time + min_call_interval) ∧
    (rate_limit now st).2.last_call_time = (rate_limit now st).1 := by
  unfold rate_limit
  dsimp only
  split
  case isTrue h =>
    refine ⟨?_, rfl⟩
    show now + (min_call_interval - (now - st.last_call_time)) =
      max now (st.last_call_time + min_call_interval)
    rw [max_eq_right
      (by linarith : now ≤ st.last_call_time + min_call_interval)]
    ring
  case isFalse h =>
    refine ⟨?_, rfl⟩
    show now = max now (st.last_call_time + min_call_interval)
    rw [max_eq_left
      (by linarith : st.last_call_time + min_call_interval ≤ now)]

/-- A string occurring between two others is found by `strContains`. -/
theorem strContains_of_eq_append (s a b c : String)
    (h : s = a ++ (b ++ c)) : strContains s b = true := by
  subst h
  unfold strContains
  apply List.any_eq_true.mpr
  refine ⟨a.toList.length, ?_, ?_⟩
  · have htl : (a ++ (b ++ c)).toList = a.toList ++ (b.toList ++ c.toList) := rfl
    simp [List.mem_range, htl]
    omega
  · have htl : (a ++ (b ++ c)).toList = a.toList ++ (b.toList ++ c.toList) := rfl
    rw [htl, List.drop_left, List.take_left]
    exact beq_self_eq_true _

/-! ## Claims -/

/-- C1 counterexample: a 200 response whose JSON content carries the
unrecognized action "ultra_nudge" is returned verbatim by
`decide_nudging_policy` — it is not normalized and not substituted with a
default, so the returned action lies outside the closed set. -/
theorem C1_counterexample_action_passthrough :
    (decideNudgingPolicyRule true "write report" {}
        (.response 200 (.json (.content
          (.parsed (some "ultra_nudge") none none))))).action = "ultra_nudge" ∧
    "ultra_nudge" ∉ allowedActions := by
  exact ⟨rfl, by decide⟩

/-- C1 (amended): the action returned by `decide_nudging_policy`
(rule-based variant) is one of the three closed values in every branch
except the successful-parse branch, where the remote `action` value is
passed through verbatim; the "gentle_nudge" default is substituted only
when the `action` key is absent. -/
theorem C1_action_closed_or_passthrough (available : Bool) (task : String)
    (obs : Observations) (o : RemoteOutcome) :
    (decideNudgingPolicyRule available task obs o).action ∈ allowedActions ∨
      some (decideNudgingPolicyRule available task obs o).action =
        remoteActionOverride o := by
  cases available with
  | false => exact Or.inl (fallbackPolicy_action_mem obs)
  | true =>
    cases o with
    | timeout => exact Or.inl (fallbackPolicy_action_mem obs)
    | requestError => exact Or.inl (fallbackPolicy_action_mem obs)
    | response status body =>
      by_cases hs : status = 200
      · subst hs
        cases body with
        | notJson => exact Or.inl (fallbackPolicy_action_mem obs)
        | json shape =>
          cases shape with
          | missingShape => exact Or.inl (fallbackPolicy_action_mem obs)
          | content c =>
            cases c with
            | parseError => exact Or.inl (fallbackPolicy_action_mem obs)
            | parsed a r t =>
              cases a with
              | none =>
                  exact Or.inl (by simp [decideNudgingPolicyRule, allowedActions])
              | some x => exact Or.inr rfl
      · refine Or.inl ?_
        have : decideNudgingPolicyRule true task obs (.response status body) =
            fallbackPolicy obs := by
          simp [decideNudgingPolicyRule, hs]
        rw [this]
        exact fallbackPolicy_action_mem obs

/-- C2 counterexample: an observation whose concatenated content carries
the distraction keyword only as "YOUTUBE" (an upper-case variation of the
listed "youtube"), short idle time and no screenshot, is classified
"quiet" by `_fallback_policy`: the membership check is case-sensitive. -/
theorem C2_counterexample_uppercase_not_matched :
    strContains (contentToCheck upperYoutubeObs) "YOUTUBE" = true ∧
    "YOUTUBE".data.map Char.toLower = "youtube".data ∧
    "youtube" ∈ strong_distractions ∧
    upperYoutubeObs.idle_ms ≤ 300000 ∧
    strTruthy upperYoutubeObs.screenshot = false ∧
    (fallbackPolicy upperYoutubeObs).action = "quiet" := by
  exact ⟨by decide, by decide, by decide, by decide, by decide, rfl⟩

/-- C2 (amended): the keyword membership check of `_fallback_policy` is
case-sensitive: an observation whose concatenation of app name, title and
URL contains the keyword exactly as listed (lower case, e.g. "youtube"),
with idle time at most 300000 ms and no screenshot, is classified
non-productive (action "strong_nudge"); a differently-cased occurrence is
not matched. -/
theorem C2_lowercase_keyword_nonproductive (obs : Observations)
    (hidle : obs.idle_ms ≤ 300000)
    (hsc : strTruthy obs.screenshot = false)
    (hkw : strContains (contentToCheck obs) "youtube" = true) :
    (fallbackPolicy obs).action = "strong_nudge" := by
  have h1 : ¬ obs.idle_ms > 300000 := by omega
  have h3 : strong_distractions.any
      (fun k => strContains (contentToCheck obs) k) = true :=
    List.any_eq_true.mpr ⟨"youtube", by simp [strong_distractions], hkw⟩
  simp [fallbackPolicy, h1, hsc, h3]

/-- C2 witness: the amended statement at a concrete observation whose
title contains "youtube" in lower case. -/
theorem C2_lowercase_keyword_witness :
    (fallbackPolicy lowerYoutubeObs).action = "strong_nudge" :=
  C2_lowercase_keyword_nonproductive lowerYoutubeObs
    (by decide) (by decide) (by decide)

/-- C3: `_fallback_policy` never consults `phone_detected`.  On the exact
observation of the repository's own test
`test_fallback_policy_phone_distraction` (`phone_detected = True`, short
idle, no screenshot, no lower-case keyword) it returns action "quiet"
with reason "Unknown activity", while the test (and the spec) require
"strong_nudge" with a phone-related reason. -/
theorem C3_phone_flag_ignored :
    phoneObs.phone_detected = true ∧
    phoneObs.idle_ms ≤ 300000 ∧
    strTruthy phoneObs.screenshot = false ∧
    fallbackPolicy phoneObs =
      { action := "quiet", reason := "Unknown activity",
        tip := none, confidence := 0.3 } := by
  exact ⟨rfl, by decide, rfl, rfl⟩

/-- C4 counterexample: in the static-fallback variant, a 200 response
whose body is valid JSON but lacks the `choices[0].message.content` shape
escapes `decide_nudging_policy` as an uncaught `KeyError` instead of
being turned into a fallback policy (`except` clauses cover only
`requests` exceptions). -/
theorem C4_counterexample_missing_shape_raises :
    (decideNudgingPolicyStatic true "write report" {}
        (.response 200 (.json .missingShape))).1 =
      Except.error PyExn.keyError := rfl

/-- C4 (amended): the static-fallback variant returns a policy normally
for every remote failure — non-success status, timeout, connection error,
undecodable body, unparsable content — EXCEPT a valid JSON body missing
the `choices`/`message`/`content` shape, which is the one and only
outcome that raises; the rule-based variant returns the rule fallback for
every failure mode, that one included. -/
theorem C4_fallback_except_missing_shape :
    (∀ task obs o, ((decideNudgingPolicyStatic true task obs o).1 =
        Except.error PyExn.keyError ↔
          o = .response 200 (.json .missingShape))) ∧
    (∀ task obs o, isFailureOutcome o = true →
        decideNudgingPolicyRule true task obs o = fallbackPolicy obs) := by
  constructor
  · intro task obs o
    cases o with
    | timeout => simp [decideNudgingPolicyStatic]
    | requestError => simp [decideNudgingPolicyStatic]
    | response status body =>
      by_cases hs : status = 200
      · subst hs
        cases body with
        | notJson => simp [decideNudgingPolicyStatic]
        | json shape =>
          cases shape with
          | missingShape => simp [decideNudgingPolicyStatic]
          | content c =>
            cases c with
            | parseError => simp [decideNudgingPolicyStatic]
            | parsed a r t => simp [decideNudgingPolicyStatic]
      · simp [decideNudgingPolicyStatic, hs]
  · intro task obs o ho
    cases o with
    | timeout => rfl
    | requestError => rfl
    | response status body =>
      by_cases hs : status = 200
      · subst hs
        cases body with
        | notJson => rfl
        | json shape =>
          cases shape with
          | missingShape => rfl
          | content c =>
            cases c with
            | parseError => rfl
            | parsed a r t => simp [isFailureOutcome] at ho
      · simp [decideNudgingPolicyRule, hs]

/-- C4 witness: the amended statement at two concrete outcomes — the
missing-shape body raising in the static variant, and a timeout yielding
the rule fallback in the rule-based variant. -/
theorem C4_fallback_witness :
    (decideNudgingPolicyStatic true "write report" {}
        (.response 200 (.json .missingShape))).1 =
      Except.error PyExn.keyError ∧
    decideNudgingPolicyRule true "write report" {} .timeout =
      fallbackPolicy {} :=
  ⟨(C4_fallback_except_missing_shape.1 "write report" {}
      (.response 200 (.json .missingShape))).mpr rfl,
   C4_fallback_except_missing_shape.2 "write report" {} .timeout rfl⟩

/-- C5: when the liveness probe reports the service unreachable, the
static-fallback `decide_nudging_policy` returns action "quiet",
confidence 0.0 and reason "LLM unavailable", and the remote decision call
is not issued (second component `false`), for every task, observation and
would-be remote outcome. -/
theorem C5_unavailable_static_quiet (task : String) (obs : Observations)
    (o : RemoteOutcome) :
    decideNudgingPolicyStatic false task obs o =
      (Except.ok { action := "quiet", reason := "LLM unavailable",
                   tip := none, confidence := 0.0 }, false) := rfl

/-- C6: two consecutive `_rate_limit`-ed calls through the same service
state are issued at wall-clock instants at least `min_call_interval`
apart; the second call is issued no earlier than it arrives (it blocks,
it is not dropped), and a call arriving before the interval has elapsed
is issued exactly when the interval since the previous call elapses. -/
theorem C6_rate_limit_min_interval (now1 now2 : ℚ) (st : RateState) :
    min_call_interval ≤
        (rate_limit now2 (rate_limit now1 st).2).1 - (rate_limit now1 st).1 ∧
    now2 ≤ (rate_limit now2 (rate_limit now1 st).2).1 ∧
    (now2 - (rate_limit now1 st).1 < min_call_interval →
      (rate_limit now2 (rate_limit now1 st).2).1 =
        (rate_limit now1 st).1 + min_call_interval) := by
  obtain ⟨-, h1b⟩ := rate_limit_step now1 st
  obtain ⟨h2a, -⟩ := rate_limit_step now2 (rate_limit now1 st).2
  rw [h1b] at h2a
  refine ⟨?_, ?_, ?_⟩
  · rw [h2a]
    have := le_max_right now2 ((rate_limit now1 st).1 + min_call_interval)
    linarith
  · rw [h2a]
    exact le_max_left _ _
  · intro h
    rw [h2a]
    exact max_eq_right (by linarith)

/-- C6 witness: with `last_call_time = 0`, a first call at t = 1 is
issued at once; a second call also arriving at t = 1 is blocked and
issued exactly at t = 1 + min_call_interval. -/
theorem C6_rate_limit_witness :
    (1 : ℚ) - (rate_limit 1 ⟨0⟩).1 < min_call_interval ∧
    (rate_limit 1 (rate_limit 1 ⟨0⟩).2).1 =
      (rate_limit 1 ⟨0⟩).1 + min_call_interval :=
  ⟨by simp [rate_limit, min_call_interval],
   (C6_rate_limit_min_interval 1 1 ⟨0⟩).2.2
     (by simp [rate_limit, min_call_interval])⟩

/-- C7: the context prompt contains the window title truncated to 80
characters, the idle-time bucket, and (for a non-empty URL) the URL
truncated to 80 characters; both truncations are at most 80 characters
long; and the bucket is "active" up to 5 s, "`N`sec idle" up to 60 s and
"`M`min `S`sec idle" above, with `M = idle_ms // 60000` and
`S = (idle_ms % 60000) // 1000`. -/
theorem C7_context_prompt_shape (task : String) (obs : Observations) :
    strContains (buildContextPrompt task obs)
        (pySlice (pyOrDefault obs.title "") 80) = true ∧
    strContains (buildContextPrompt task obs) (idleDesc obs.idle_ms) = true ∧
    (pyOrDefault obs.url "" ≠ "" →
      strContains (buildContextPrompt task obs)
        (pySlice (pyOrDefault obs.url "") 80) = true) ∧
    (pySlice (pyOrDefault obs.title "") 80).length ≤ 80 ∧
    (pySlice (pyOrDefault obs.url "") 80).length ≤ 80 ∧
    (obs.idle_ms ≤ 5000 → idleDesc obs.idle_ms = "active") ∧
    (5000 < obs.idle_ms → obs.idle_ms ≤ 60000 →
      idleDesc obs.idle_ms = toString (obs.idle_ms.fdiv 1000) ++ "sec idle") ∧
    (60000 < obs.idle_ms →
      idleDesc obs.idle_ms = toString (obs.idle_ms.fdiv 60000) ++ "min " ++
        toString ((obs.idle_ms.fmod 60000).fdiv 1000) ++ "sec idle") := by
  refine ⟨?_, ?_, ?_, ?_, ?_, ?_, ?_, ?_⟩
  · exact strContains_of_eq_append (buildContextPrompt task obs)
      ("Task: " ++ task ++ "\nCurrent Activity:" ++ "\n- App: " ++
        pyOrDefault obs.active_app "unknown" ++ "\n- Window: ")
      (pySlice (pyOrDefault obs.title "") 80)
      ("\n- URL: " ++
        (if pyOrDefault obs.url "" ≠ ""
          then pySlice (pyOrDefault obs.url "") 80 else "N/A") ++
       "\n- Status: " ++ idleDesc obs.idle_ms ++
       "\n- Screenshot: " ++
        (if pyOrDefault obs.screenshot "" ≠ ""
          then "Available" else "Not available") ++
       "\n\nPlease analyze the screenshot (if available) to determine" ++
       "\nif the user is focused on their task or being distracted." ++
       "\nDecide the best nudging action now.")
      (by simp only [buildContextPrompt, string_append_assoc])
  · exact strContains_of_eq_append (buildContextPrompt task obs)
      ("Task: " ++ task ++ "\nCurrent Activity:" ++ "\n- App: " ++
        pyOrDefault obs.active_app "unknown" ++ "\n- Window: " ++
        pySlice (pyOrDefault obs.title "") 80 ++ "\n- URL: " ++
        (if pyOrDefault obs.url "" ≠ ""
          then pySlice (pyOrDefault obs.url "") 80 else "N/A") ++
        "\n- Status: ")
      (idleDesc obs.idle_ms)
      ("\n- Screenshot: " ++
        (if pyOrDefault obs.screenshot "" ≠ ""
          then "Available" else "Not available") ++
       "\n\nPlease analyze the screenshot (if available) to determine" ++
       "\nif the user is focused on their task or being distracted." ++
       "\nDecide the best nudging action now.")
      (by simp only [buildContextPrompt, string_append_assoc])
  · intro hurl
    exact strContains_of_eq_append (buildContextPrompt task obs)
      ("Task: " ++ task ++ "\nCurrent Activity:" ++ "\n- App: " ++
        pyOrDefault obs.active_app "unknown" ++ "\n- Window: " ++
        pySlice (pyOrDefault obs.title "") 80 ++ "\n- URL: ")
      (pySlice (pyOrDefault obs.url "") 80)
      ("\n- Status: " ++ idleDesc obs.idle_ms ++
       "\n- Screenshot: " ++
        (if pyOrDefault obs.screenshot "" ≠ ""
          then "Available" else "Not available") ++
       "\n\nPlease analyze the screenshot (if available) to determine" ++
       "\nif the user is focused on their task or being distracted." ++
       "\nDecide the best nudging action now.")
      (by simp only [buildContextPrompt, string_append_assoc, hurl,
            ne_eq, not_false_eq_true, if_true])
  · show ((pyOrDefault obs.title "").toList.take 80).length ≤ 80
    rw [List.length_take]
    exact min_le_left _ _
  · show ((pyOrDefault obs.url "").toList.take 80).length ≤ 80
    rw [List.length_take]
    exact min_le_left _ _
  · intro h
    unfold idleDesc IDLE_LONG_MS IDLE_SHORT_MS
    rw [if_neg (by omega), if_neg (by omega)]
  · intro h1 h2
    unfold idleDesc IDLE_LONG_MS IDLE_SHORT_MS
    rw [if_neg (by omega), if_pos (by omega)]
  · intro h
    unfold idleDesc IDLE_LONG_MS
    rw [if_pos (by omega)]

/-- C7 witness: the three idle buckets and the URL inclusion at concrete
observations (3 s, 30 s, 90.5 s idle; non-empty URL). -/
theorem C7_context_prompt_witness :
    idleDesc activeIdleObs.idle_ms = "active" ∧
    idleDesc shortIdleObs.idle_ms =
      toString (shortIdleObs.idle_ms.fdiv 1000) ++ "sec idle" ∧
    idleDesc longIdleObs.idle_ms =
      toString (longIdleObs.idle_ms.fdiv 60000) ++ "min " ++
        toString ((longIdleObs.idle_ms.fmod 60000).fdiv 1000) ++ "sec idle" ∧
    strContains (buildContextPrompt "write report" longIdleObs)
      (pySlice (pyOrDefault longIdleObs.url "") 80) = true :=
  ⟨(C7_context_prompt_shape "write report" activeIdleObs).2.2.2.2.2.1
     (by decide),
   (C7_context_prompt_shape "write report" shortIdleObs).2.2.2.2.2.2.1
     (by decide) (by decide),
   (C7_context_prompt_shape "write report" longIdleObs).2.2.2.2.2.2.2
     (by decide),
   (C7_context_prompt_shape "write report" longIdleObs).2.2.1
     (by decide)⟩

/-- C8 counterexample: status 204 is a 2xx success, yet `is_available`
reports `False` for it — success is `status_code == 200`, not "any
2xx". -/
theorem C8_counterexample_204_reported_unavailable :
    (200 ≤ 204 ∧ 204 < 300) ∧
    is_available (GetOutcome.response 204) = false := by decide

/-- C8 (amended): `is_available` returns `True` exactly when the GET
returns status 200 (and `False`, rather than raising, when the request
fails with an exception). -/
theorem C8_available_iff_status_200 (o : GetOutcome) :
    is_available o = true ↔ o = .response 200 := by
  cases o with
  | exn => simp [is_available]
  | response status => simp [is_available]

/-- C9: the productive flag computed by `ingest_event` (returned by the
`/events` endpoint and stored in `STATE["productive"]`) is true exactly
when the decided policy's action is "quiet"; any other action — in
particular "gentle_nudge" and "strong_nudge" — is reported
non-productive. -/
theorem C9_productive_iff_quiet (st : ServerState) (event : Observations)
    (decideFn : String → Observations → NudgingPolicy) :
    ((ingest_event st event decideFn).2.1 = true ↔
        ((ingest_event st event decideFn).2.2).action = "quiet") ∧
    (ingest_event st event decideFn).1.productive =
      (ingest_event st event decideFn).2.1 := by
  constructor
  · simp [ingest_event, evaluateProductivityByAI]
  · rfl

/-- C10: with idle time at most 300000 ms and a truthy (non-empty)
screenshot, `_fallback_policy` returns quiet at confidence 0.2 —
reason "Screenshot analysis unavailable" — regardless of any distraction
keywords in app/title/URL and regardless of `phone_detected`: keyword
scanning is bypassed whenever a screenshot accompanies the
observation. -/
theorem C10_screenshot_bypasses_rules (obs : Observations)
    (hidle : obs.idle_ms ≤ 300000)
    (hsc : strTruthy obs.screenshot = true) :
    fallbackPolicy obs =
      { action := "quiet", reason := "Screenshot analysis unavailable",
        tip := none, confidence := 0.2 } := by
  have h1 : ¬ obs.idle_ms > 300000 := by omega
  simp [fallbackPolicy, h1, hsc]

/-- C10 witness: the statement at a concrete observation that carries a
strong distraction keyword, the phone flag and a screenshot at once. -/
theorem C10_screenshot_witness :
    fallbackPolicy screenshotObs =
      { action := "quiet", reason := "Screenshot analysis unavailable",
        tip := none, confidence := 0.2 } :=
  C10_screenshot_bypasses_rules screenshotObs (by decide) (by decide)

end Back2Task
